import Mathlib

/-!
Verification of the bus-tracking occupancy core (src/main.py).

The Python program keeps its state in a SQLite database; we embed that
state shallowly:

* the single `system_settings` row keyed `current_seat_count` becomes
  `seatRow : Option Int` (`none` = the row is absent; its TEXT value is
  read back through Python `int`, hence `Int`);
* the `rfid_lists` table becomes two lists of uid strings, `boarding`
  and `alighting` (the SELECTs in `get_rfid_lists` project exactly
  these);
* the `gps_history` and `rfid_scans` tables become lists of records
  ordered newest-first, matching the `ORDER BY created_at DESC` reads
  (`created_at` ties are broken by insertion order, which the
  autoincrement `id` preserves);
* the wall-clock string `datetime.now().isoformat()` is threaded in as
  an explicit `now : String` argument.

Latitude/longitude are Python floats that the program only stores and
echoes, never computes with; we model them as `Rat` so that states stay
decidably comparable.
-/

/-- Request body `GPSData` of POST /gps (src/main.py lines 24-28).
`satellites` is optional with default 0; the boundary applies the
default, so the core sees an integer. -/
structure GPSData where
  latitude : Rat
  longitude : Rat
  timestamp : Int
  satellites : Int
deriving Repr, DecidableEq

/-- Request body `RFIDData` of POST /rfid (src/main.py lines 30-32). -/
structure RFIDData where
  uid : String
  timestamp : Int
deriving Repr, DecidableEq

/-- A row of the `gps_history` table (latitude, longitude, timestamp,
satellites, datetime). -/
structure GPSFix where
  latitude : Rat
  longitude : Rat
  timestamp : Int
  satellites : Int
  datetime : String
deriving Repr, DecidableEq

/-- A row of the `rfid_scans` table (uid, timestamp, datetime, action). -/
structure ScanEvent where
  uid : String
  timestamp : Int
  datetime : String
  action : String
deriving Repr, DecidableEq

/-- Capacity constant `TOTAL_SEATS = 30` (src/main.py line 35). -/
def TOTAL_SEATS : Int := 30

/-- The database state of the program.  Logs are newest-first. -/
structure SysState where
  seatRow : Option Int
  boarding : List String
  alighting : List String
  gpsLog : List GPSFix
  scanLog : List ScanEvent
deriving Repr, DecidableEq

/-- Function `get_current_seat_count` (src/main.py lines 117-123):
`int(result['value']) if result else 0`. -/
def get_current_seat_count (row : Option Int) : Int :=
  match row with
  | some v => v
  | none => 0

/-- Function `update_seat_count` (src/main.py lines 125-134): a SQL
UPDATE of the row keyed `current_seat_count`; when no such row exists
the UPDATE matches nothing and the store is unchanged. -/
def update_seat_count (row : Option Int) (new_count : Int) : Option Int :=
  match row with
  | some _ => some new_count
  | none => none

/-- Python `uid.upper()` as used on the uid strings, embedded as a
character-wise map (Python `str.upper` on these ASCII tokens is exactly
per-character upper-casing). -/
def pyUpper (s : String) : String := ⟨s.data.map Char.toUpper⟩

/-- Response body of POST /rfid (src/main.py lines 234-240); the
constant `status`/`message` strings are omitted. -/
structure RFIDResponse where
  action : String
  current_seats : Int
  total_seats : Int
deriving Repr, DecidableEq

/-- Endpoint `receive_rfid_scan` (src/main.py lines 188-240): read the
counter, classify `data.uid` against the two lists (boarding checked
first), apply the guarded transition, write the counter back, append
the scan (with the uid exactly as received) to `rfid_scans`. -/
def receive_rfid_scan (s : SysState) (data : RFIDData) (now : String) :
    SysState × RFIDResponse :=
  let count0 := get_current_seat_count s.seatRow
  let step : Int × String :=
    if data.uid ∈ s.boarding then
      if count0 < TOTAL_SEATS then (count0 + 1, "boarding")
      else (count0, "boarding_denied")
    else if data.uid ∈ s.alighting then
      if count0 > 0 then (count0 - 1, "alighting")
      else (count0, "alighting_error")
    else (count0, "unknown")
  let event : ScanEvent :=
    { uid := data.uid, timestamp := data.timestamp, datetime := now,
      action := step.2 }
  ({ s with
      seatRow := update_seat_count s.seatRow step.1,
      scanLog := event :: s.scanLog },
   { action := step.2, current_seats := step.1, total_seats := TOTAL_SEATS })

/-- Endpoint `reset_seat_count` (src/main.py lines 405-414):
`update_seat_count(0)` and nothing else. -/
def reset_seat_count (s : SysState) : SysState :=
  { s with seatRow := update_seat_count s.seatRow 0 }

/-- The operations that touch the occupancy counter: scan ingestion and
the administrative reset. -/
inductive SeatOp where
  | scan (data : RFIDData) (now : String)
  | reset
deriving Repr

/-- One counter-touching operation applied to the state. -/
def applySeatOp (s : SysState) (op : SeatOp) : SysState :=
  match op with
  | .scan data now => (receive_rfid_scan s data now).1
  | .reset => reset_seat_count s

/-- The capacity invariant `0 ≤ filled ≤ 30` on the stored counter. -/
def SeatInv (s : SysState) : Prop :=
  0 ≤ get_current_seat_count s.seatRow ∧
    get_current_seat_count s.seatRow ≤ TOTAL_SEATS

instance (s : SysState) : Decidable (SeatInv s) := by
  unfold SeatInv; infer_instance

/-- Endpoint `add_boarding_rfid` (src/main.py lines 311-341):
upper-case the uid, report `exists` if it is already in the boarding
list, reject with status `error` if it is in the alighting list,
otherwise insert it.  The SELECT in `get_rfid_lists` reads rows back in
insertion order, so insertion appends at the end. -/
def add_boarding_rfid (s : SysState) (uid : String) : SysState × String :=
  let u := pyUpper uid
  if u ∈ s.boarding then (s, "exists")
  else if u ∈ s.alighting then (s, "error")
  else ({ s with boarding := s.boarding ++ [u] }, "success")

/-- Endpoint `add_alighting_rfid` (src/main.py lines 343-373),
symmetric to `add_boarding_rfid`. -/
def add_alighting_rfid (s : SysState) (uid : String) : SysState × String :=
  let u := pyUpper uid
  if u ∈ s.alighting then (s, "exists")
  else if u ∈ s.boarding then (s, "error")
  else ({ s with alighting := s.alighting ++ [u] }, "success")

/-- Endpoint `remove_boarding_rfid` (src/main.py lines 375-388): DELETE
the rows with this (upper-cased) uid from the boarding list; `success`
when a row was deleted, `not_found` otherwise. -/
def remove_boarding_rfid (s : SysState) (uid : String) : SysState × String :=
  let u := pyUpper uid
  if u ∈ s.boarding then
    ({ s with boarding := s.boarding.filter (· ≠ u) }, "success")
  else (s, "not_found")

/-- Endpoint `remove_alighting_rfid` (src/main.py lines 390-403). -/
def remove_alighting_rfid (s : SysState) (uid : String) : SysState × String :=
  let u := pyUpper uid
  if u ∈ s.alighting then
    ({ s with alighting := s.alighting.filter (· ≠ u) }, "success")
  else (s, "not_found")

/-- Default boarding list inserted by `init_database`
(src/main.py line 102). -/
def default_boarding : List String := ["F3A02F27", "5E6F7A8B", "9C0D1E2F"]

/-- Default alighting list inserted by `init_database`
(src/main.py line 103). -/
def default_alighting : List String := ["5331E50C", "E5F6A7B8", "C9D0E1F2"]

/-- The state `init_database` (src/main.py lines 47-115) produces from
an empty database: counter row `'0'`, the default lists, empty logs. -/
def initState : SysState :=
  { seatRow := some 0, boarding := default_boarding,
    alighting := default_alighting, gpsLog := [], scanLog := [] }

/-- The registry mutations of the HTTP surface. -/
inductive RegOp where
  | addBoarding (uid : String)
  | addAlighting (uid : String)
  | removeBoarding (uid : String)
  | removeAlighting (uid : String)
deriving Repr

/-- One registry mutation applied to the state. -/
def applyRegOp (s : SysState) (op : RegOp) : SysState :=
  match op with
  | .addBoarding uid => (add_boarding_rfid s uid).1
  | .addAlighting uid => (add_alighting_rfid s uid).1
  | .removeBoarding uid => (remove_boarding_rfid s uid).1
  | .removeAlighting uid => (remove_alighting_rfid s uid).1

/-- Disjointness of the two membership lists. -/
def RegDisjoint (s : SysState) : Prop :=
  ∀ u, u ∈ s.boarding → u ∉ s.alighting

/-- The `gps_history` row `receive_gps_data` builds from the request
body (src/main.py lines 161-164). -/
def mkGPSFix (data : GPSData) (now : String) : GPSFix :=
  { latitude := data.latitude, longitude := data.longitude,
    timestamp := data.timestamp, satellites := data.satellites,
    datetime := now }

/-- The fix-log cap (src/main.py line 172). -/
def GPS_CAP : Nat := 100

/-- Endpoint `receive_gps_data` (src/main.py lines 154-186): insert the
fix, then delete every row not among the 100 most recent.  On the
newest-first log this is a cons followed by `take 100`.  The response
echoes status and coordinates; only the status is kept here. -/
def receive_gps_data (s : SysState) (data : GPSData) (now : String) :
    SysState × String :=
  ({ s with gpsLog := (mkGPSFix data now :: s.gpsLog).take GPS_CAP },
   "success")

/-- Endpoint `get_gps_history` (src/main.py lines 416-447): the `limit`
most recent fixes, most-recent-first (the endpoint defaults limit
to 20). -/
def get_gps_history (s : SysState) (limit : Nat) : List GPSFix :=
  s.gpsLog.take limit

/-- Endpoint `get_rfid_history` (src/main.py lines 449-479). -/
def get_rfid_history (s : SysState) (limit : Nat) : List ScanEvent :=
  s.scanLog.take limit

/-- Endpoint `get_latest_rfid` (src/main.py lines 242-263): the most
recent scan, or HTTPException 404 when the scan log is empty. -/
def get_latest_rfid (s : SysState) : Except Nat ScanEvent :=
  match s.scanLog.head? with
  | some e => .ok e
  | none => .error 404

/-- Endpoint `get_latest_location` (src/main.py lines 265-287). -/
def get_latest_location (s : SysState) : Except Nat GPSFix :=
  match s.gpsLog.head? with
  | some e => .ok e
  | none => .error 404

/-- Endpoint `get_card_history` (src/main.py lines 481-508): upper-case
the query uid, return every stored scan whose uid equals it,
most-recent-first, without a limit. -/
def get_card_history (s : SysState) (uid : String) : List ScanEvent :=
  s.scanLog.filter (fun e => e.uid = pyUpper uid)

/-- Response body of GET /seats/count (src/main.py lines 293-298).  The
response also carries `occupancy_percentage = round(filled/30*100, 2)`,
a float computation no claim depends on; it is omitted here. -/
structure SeatCountResponse where
  seats_filled : Int
  total_seats : Int
  seats_available : Int
deriving Repr, DecidableEq

/-- Endpoint `get_seat_count` (src/main.py lines 289-298). -/
def get_seat_count (s : SysState) : SeatCountResponse :=
  let c := get_current_seat_count s.seatRow
  { seats_filled := c, total_seats := TOTAL_SEATS,
    seats_available := TOTAL_SEATS - c }

/-- A 100-entry fix log with pairwise-distinct rows, used as a concrete
input below. -/
def c6log : List GPSFix :=
  (List.range 100).map
    (fun i => { latitude := 0, longitude := 0, timestamp := (i : Int),
                satellites := 0, datetime := "" })

/-- Claim C1: every ingested scan follows the five-case transition
table: boarding uid with filled < 30 increments and reports `boarding`;
boarding uid at filled = 30 leaves the counter and reports
`boarding_denied`; alighting uid with filled > 0 decrements and reports
`alighting`; alighting uid at filled = 0 leaves the counter and reports
`alighting_error`; an unregistered uid leaves the counter and reports
`unknown`.  Stated over states whose settings row exists (init_database
creates it) and whose registry is disjoint (the upstream invariant the
claim's classification table presupposes). -/
theorem C1_scan_transition_table (s : SysState) (data : RFIDData)
    (now : String) (v : Int) (hrow : s.seatRow = some v)
    (hdisj : ∀ u, u ∈ s.boarding → u ∉ s.alighting) :
    let c := get_current_seat_count s.seatRow
    let r := receive_rfid_scan s data now
    let c' := get_current_seat_count r.1.seatRow
    (data.uid ∈ s.boarding → c < 30 →
       c' = c + 1 ∧ r.2.action = "boarding") ∧
    (data.uid ∈ s.boarding → c = 30 →
       c' = c ∧ r.2.action = "boarding_denied") ∧
    (data.uid ∈ s.alighting → c > 0 →
       c' = c - 1 ∧ r.2.action = "alighting") ∧
    (data.uid ∈ s.alighting → c = 0 →
       c' = c ∧ r.2.action = "alighting_error") ∧
    (data.uid ∉ s.boarding → data.uid ∉ s.alighting →
       c' = c ∧ r.2.action = "unknown") := by
  intro c r c'
  have hc : c = v := by simp [c, get_current_seat_count, hrow]
  refine ⟨?_, ?_, ?_, ?_, ?_⟩
  · intro hb hlt
    rw [hc] at hlt
    simp [receive_rfid_scan, hb, hrow, update_seat_count,
      get_current_seat_count, c', r, hc, TOTAL_SEATS, hlt]
  · intro hb heq
    rw [hc] at heq
    simp [receive_rfid_scan, hb, hrow, update_seat_count,
      get_current_seat_count, c', r, hc, TOTAL_SEATS, heq]
  · intro ha hpos
    have hb : data.uid ∉ s.boarding := fun hb => hdisj _ hb ha
    rw [hc] at hpos
    simp [receive_rfid_scan, hb, ha, hrow, update_seat_count,
      get_current_seat_count, c', r, hc, hpos]
  · intro ha heq
    have hb : data.uid ∉ s.boarding := fun hb => hdisj _ hb ha
    rw [hc] at heq
    simp [receive_rfid_scan, hb, ha, hrow, update_seat_count,
      get_current_seat_count, c', r, hc, heq]
  · intro hb ha
    simp [receive_rfid_scan, hb, ha, hrow, update_seat_count,
      get_current_seat_count, c', r, hc]

/-- Witness for C1: with 5 seats filled, a scan of a boarding-list uid
is admitted and increments the count. -/
theorem C1_scan_transition_table_witness :
    get_current_seat_count
        ((receive_rfid_scan ⟨some 5, ["A"], ["B"], [], []⟩ ⟨"A", 0⟩ "t").1.seatRow) =
      get_current_seat_count (some 5) + 1 ∧
    (receive_rfid_scan ⟨some 5, ["A"], ["B"], [], []⟩ ⟨"A", 0⟩ "t").2.action =
      "boarding" :=
  (C1_scan_transition_table ⟨some 5, ["A"], ["B"], [], []⟩ ⟨"A", 0⟩ "t" 5 rfl
      (by intro u hu hv
          simp only [List.mem_singleton] at hu hv
          subst hu
          exact (by decide : ("A" : String) ≠ "B") hv)).1
    (by decide) (by decide)

lemma seatInv_scan (s : SysState) (data : RFIDData) (now : String)
    (h : SeatInv s) : SeatInv (receive_rfid_scan s data now).1 := by
  obtain ⟨h0, h1⟩ := h
  cases hrow : s.seatRow with
  | none =>
    simp [SeatInv, receive_rfid_scan, update_seat_count, hrow,
      get_current_seat_count, TOTAL_SEATS]
  | some v =>
    rw [hrow] at h0 h1
    simp only [get_current_seat_count, TOTAL_SEATS] at h0 h1
    simp only [SeatInv, receive_rfid_scan, update_seat_count, hrow,
      get_current_seat_count, TOTAL_SEATS]
    split_ifs <;> constructor <;> omega

lemma seatInv_step (s : SysState) (op : SeatOp) (h : SeatInv s) :
    SeatInv (applySeatOp s op) := by
  cases op with
  | scan data now => exact seatInv_scan s data now h
  | reset =>
    cases hrow : s.seatRow <;>
      simp [SeatInv, applySeatOp, reset_seat_count, update_seat_count, hrow,
        get_current_seat_count, TOTAL_SEATS]

lemma seatInv_fold (ops : List SeatOp) (s : SysState) (h : SeatInv s) :
    SeatInv (ops.foldl applySeatOp s) := by
  induction ops generalizing s with
  | nil => exact h
  | cons op rest ih => exact ih _ (seatInv_step s op h)

/-- Claim C2: starting from any state whose stored counter lies in
`[0, 30]`, every sequence of scan-ingest and reset operations keeps the
counter in `[0, 30]` after every operation, and no single transition
leaves the range. -/
theorem C2_capacity_invariant (s : SysState) (h : SeatInv s) :
    (∀ op, SeatInv (applySeatOp s op)) ∧
    ∀ ops : List SeatOp, SeatInv (ops.foldl applySeatOp s) :=
  ⟨fun op => seatInv_step s op h, fun ops => seatInv_fold ops s h⟩

/-- Witness for C2: a concrete run (board twice, reset, alight once)
from a full bus keeps the invariant. -/
theorem C2_capacity_invariant_witness :
    SeatInv
      (([SeatOp.scan ⟨"A", 1⟩ "t1", SeatOp.scan ⟨"A", 2⟩ "t2", SeatOp.reset,
         SeatOp.scan ⟨"B", 3⟩ "t3"]).foldl applySeatOp
        ⟨some 30, ["A"], ["B"], [], []⟩) :=
  (C2_capacity_invariant ⟨some 30, ["A"], ["B"], [], []⟩ (by decide)).2 _

lemma regDisjoint_init : RegDisjoint initState := by
  intro u hu hv
  simp [initState, default_boarding, default_alighting] at hu hv
  rcases hu with h | h | h <;> subst h <;> revert hv <;> decide

lemma regDisjoint_step (s : SysState) (op : RegOp) (h : RegDisjoint s) :
    RegDisjoint (applyRegOp s op) := by
  cases op with
  | addBoarding uid =>
    by_cases h1 : pyUpper uid ∈ s.boarding
    · simpa [applyRegOp, add_boarding_rfid, h1] using h
    · by_cases h2 : pyUpper uid ∈ s.alighting
      · simpa [applyRegOp, add_boarding_rfid, h1, h2] using h
      · intro u hu hv
        simp [applyRegOp, add_boarding_rfid, h1, h2] at hu hv
        rcases hu with hu | hu
        · exact h u hu hv
        · subst hu; exact h2 hv
  | addAlighting uid =>
    by_cases h1 : pyUpper uid ∈ s.alighting
    · simpa [applyRegOp, add_alighting_rfid, h1] using h
    · by_cases h2 : pyUpper uid ∈ s.boarding
      · simpa [applyRegOp, add_alighting_rfid, h1, h2] using h
      · intro u hu hv
        simp [applyRegOp, add_alighting_rfid, h1, h2] at hu hv
        rcases hv with hv | hv
        · exact h u hu hv
        · subst hv; exact h2 hu
  | removeBoarding uid =>
    by_cases h1 : pyUpper uid ∈ s.boarding
    · intro u hu hv
      simp [applyRegOp, remove_boarding_rfid, h1] at hu hv
      exact h u hu.1 hv
    · simpa [applyRegOp, remove_boarding_rfid, h1] using h
  | removeAlighting uid =>
    by_cases h1 : pyUpper uid ∈ s.alighting
    · intro u hu hv
      simp [applyRegOp, remove_alighting_rfid, h1] at hu hv
      exact h u hu hv.1
    · simpa [applyRegOp, remove_alighting_rfid, h1] using h

/-- Claim C4: every registry state reachable from the default
membership by add and remove operations keeps the boarding and
alighting lists disjoint. -/
theorem C4_registry_disjoint (ops : List RegOp) :
    RegDisjoint (ops.foldl applyRegOp initState) := by
  have step : ∀ s, RegDisjoint s → ∀ rest : List RegOp,
      RegDisjoint (rest.foldl applyRegOp s) := by
    intro s hs rest
    induction rest generalizing s with
    | nil => exact hs
    | cons op tail ih => exact ih _ (regDisjoint_step s op hs)
  exact step initState regDisjoint_init ops

/-- Claim C5: adding a badge that is present in the other list is
rejected with the conflict status and mutates nothing; afterwards the
original list still contains the badge and the other list does not. -/
theorem C5_conflict_add_rejected (s : SysState) (uid : String) :
    (pyUpper uid ∉ s.boarding → pyUpper uid ∈ s.alighting →
      add_boarding_rfid s uid = (s, "error") ∧
      pyUpper uid ∈ (add_boarding_rfid s uid).1.alighting ∧
      pyUpper uid ∉ (add_boarding_rfid s uid).1.boarding) ∧
    (pyUpper uid ∉ s.alighting → pyUpper uid ∈ s.boarding →
      add_alighting_rfid s uid = (s, "error") ∧
      pyUpper uid ∈ (add_alighting_rfid s uid).1.boarding ∧
      pyUpper uid ∉ (add_alighting_rfid s uid).1.alighting) := by
  constructor
  · intro hb ha
    simp [add_boarding_rfid, hb, ha]
  · intro ha hb
    simp [add_alighting_rfid, hb, ha]

/-- Witness for C5: badge `5331E50C` sits in the default alighting
list; adding it to the boarding list is rejected and mutates nothing. -/
theorem C5_conflict_add_rejected_witness :
    add_boarding_rfid initState "5331E50C" = (initState, "error") ∧
    pyUpper "5331E50C" ∈ (add_boarding_rfid initState "5331E50C").1.alighting ∧
    pyUpper "5331E50C" ∉ (add_boarding_rfid initState "5331E50C").1.boarding :=
  (C5_conflict_add_rejected initState "5331E50C").1 (by decide) (by decide)

/-- Claim C3 fails on the code: `receive_rfid_scan` never upper-cases
the incoming uid.  A scan of `f3a02f27`, while `F3A02F27` is registered
for boarding, is classified `unknown` rather than like the registered
badge, and the recorded event stores the lower-case uid verbatim. -/
theorem C3_counterexample :
    (receive_rfid_scan ⟨some 0, ["F3A02F27"], [], [], []⟩
        ⟨"f3a02f27", 0⟩ "t").2.action = "unknown" ∧
    (receive_rfid_scan ⟨some 0, ["F3A02F27"], [], [], []⟩
        ⟨"f3a02f27", 0⟩ "t").1.scanLog =
      [{ uid := "f3a02f27", timestamp := 0, datetime := "t",
         action := "unknown" }] := by decide

/-- Claim C3 amended: the registry add endpoints canonicalize the uid
to upper-case before comparison and storage, but scan ingestion does
not: `receive_rfid_scan` compares the received uid verbatim against
both lists and records it verbatim, so a scan is classified `unknown`
exactly when its literal uid is in neither list. -/
theorem C3_amended_canonicalization (s : SysState) (data : RFIDData)
    (now : String) :
    ((receive_rfid_scan s data now).1.scanLog =
      { uid := data.uid, timestamp := data.timestamp, datetime := now,
        action := (receive_rfid_scan s data now).2.action } :: s.scanLog) ∧
    ((receive_rfid_scan s data now).2.action = "unknown" ↔
      data.uid ∉ s.boarding ∧ data.uid ∉ s.alighting) ∧
    (pyUpper data.uid ∉ s.boarding → pyUpper data.uid ∉ s.alighting →
      (add_boarding_rfid s data.uid).1.boarding =
        s.boarding ++ [pyUpper data.uid]) := by
  refine ⟨rfl, ?_, ?_⟩
  · by_cases hb : data.uid ∈ s.boarding
    · by_cases hlt : get_current_seat_count s.seatRow < TOTAL_SEATS <;>
        simp [receive_rfid_scan, hb, hlt]
    · by_cases ha : data.uid ∈ s.alighting
      · by_cases hpos : get_current_seat_count s.seatRow > 0 <;>
          simp [receive_rfid_scan, hb, ha, hpos]
      · simp [receive_rfid_scan, hb, ha]
  · intro h1 h2
    simp [add_boarding_rfid, h1, h2]

/-- Witness for C3's amended statement: a scan of `zz` is recorded
verbatim and classified `unknown`, while the boarding add stores the
canonicalized `ZZ`. -/
theorem C3_amended_canonicalization_witness :
    ((receive_rfid_scan ⟨some 0, [], [], [], []⟩ ⟨"zz", 7⟩ "t").1.scanLog =
      { uid := "zz", timestamp := 7, datetime := "t",
        action := (receive_rfid_scan ⟨some 0, [], [], [], []⟩
          ⟨"zz", 7⟩ "t").2.action } :: []) ∧
    (add_boarding_rfid ⟨some 0, [], [], [], []⟩ "zz").1.boarding =
      [] ++ [pyUpper "zz"] :=
  ⟨(C3_amended_canonicalization ⟨some 0, [], [], [], []⟩ ⟨"zz", 7⟩ "t").1,
   (C3_amended_canonicalization ⟨some 0, [], [], [], []⟩ ⟨"zz", 7⟩ "t").2.2
     (by decide) (by decide)⟩

/-- Claim C6: appending a fix to a gps log holding exactly 100 entries
evicts exactly the oldest entry: afterwards the log again holds 100
entries, namely the new fix and the 99 youngest prior entries, and the
evicted oldest entry is absent from `recent(100)`.  The `Nodup`
hypothesis makes "the evicted entry is absent" well-posed (a duplicate
value of the oldest row could otherwise remain). -/
theorem C6_gps_eviction (s : SysState) (data : GPSData) (now : String)
    (h100 : s.gpsLog.length = 100)
    (hnodup : (mkGPSFix data now :: s.gpsLog).Nodup) :
    let log' := (receive_gps_data s data now).1.gpsLog
    log'.length = 100 ∧
    log' = mkGPSFix data now :: s.gpsLog.dropLast ∧
    (∀ old, s.gpsLog.getLast? = some old →
      old ∉ get_gps_history (receive_gps_data s data now).1 100) ∧
    mkGPSFix data now ∈ log' ∧
    ∀ e ∈ s.gpsLog.dropLast, e ∈ log' := by
  intro log'
  have hne : s.gpsLog ≠ [] := by
    intro h; rw [h] at h100; simp at h100
  have hstruct : log' = mkGPSFix data now :: s.gpsLog.dropLast := by
    show (mkGPSFix data now :: s.gpsLog).take GPS_CAP = _
    have hdl : s.gpsLog.dropLast = s.gpsLog.take 99 := by
      rw [List.dropLast_eq_take, h100]
    rw [hdl, show GPS_CAP = 99 + 1 from rfl, List.take_succ_cons]
  have hlen : log'.length = 100 := by
    rw [hstruct]
    simp [List.length_dropLast, h100]
  refine ⟨hlen, hstruct, ?_, ?_, ?_⟩
  · intro old hold
    have hlast : old = s.gpsLog.getLast hne := by
      rw [List.getLast?_eq_getLast _ hne] at hold
      exact (Option.some_inj.mp hold).symm
    have hrecent : get_gps_history (receive_gps_data s data now).1 100 = log' := by
      show log'.take 100 = log'
      rw [← hlen, List.take_length]
    rw [hrecent, hstruct]
    obtain ⟨hfx, hnd⟩ := List.nodup_cons.mp hnodup
    intro hmem
    rcases List.mem_cons.mp hmem with heq | hmem'
    · exact hfx (heq ▸ hlast ▸ s.gpsLog.getLast_mem hne)
    · have hsplit : s.gpsLog.dropLast ++ [s.gpsLog.getLast hne] = s.gpsLog :=
        List.dropLast_append_getLast hne
      have hnd' := hsplit ▸ hnd
      obtain ⟨-, -, hdisj⟩ := List.nodup_append.mp hnd'
      exact hdisj (hlast ▸ hmem') (hlast ▸ List.mem_singleton_self old)
  · rw [hstruct]; exact List.mem_cons_self _ _
  · intro e he
    rw [hstruct]
    exact List.mem_cons_of_mem _ he

/-- Witness for C6: appending a 101st distinct fix to the concrete
100-entry log keeps the log at 100 entries. -/
theorem C6_gps_eviction_witness :
    (receive_gps_data ⟨some 0, [], [], c6log, []⟩ ⟨1, 2, 1000, 3⟩
        "t").1.gpsLog.length = 100 :=
  (C6_gps_eviction ⟨some 0, [], [], c6log, []⟩ ⟨1, 2, 1000, 3⟩ "t"
      (by decide) (by decide)).1

/-- Claim C7: the latest-scan and latest-fix queries answer 404 (an
explicit not-found signal) exactly on an empty log, and otherwise
return the most recently appended entry; in particular the entry just
ingested by a scan or fix ingest is the one returned. -/
theorem C7_latest_queries (s : SysState) :
    (s.scanLog = [] → get_latest_rfid s = .error 404) ∧
    (∀ e rest, s.scanLog = e :: rest → get_latest_rfid s = .ok e) ∧
    (s.gpsLog = [] → get_latest_location s = .error 404) ∧
    (∀ e rest, s.gpsLog = e :: rest → get_latest_location s = .ok e) ∧
    (∀ data now, get_latest_rfid (receive_rfid_scan s data now).1 =
      .ok { uid := data.uid, timestamp := data.timestamp, datetime := now,
            action := (receive_rfid_scan s data now).2.action }) ∧
    (∀ data now, get_latest_location (receive_gps_data s data now).1 =
      .ok (mkGPSFix data now)) := by
  refine ⟨?_, ?_, ?_, ?_, ?_, ?_⟩
  · intro h; simp [get_latest_rfid, h]
  · intro e rest h; simp [get_latest_rfid, h]
  · intro h; simp [get_latest_location, h]
  · intro e rest h; simp [get_latest_location, h]
  · intro data now; rfl
  · intro data now
    have hlog : (receive_gps_data s data now).1.gpsLog =
        mkGPSFix data now :: s.gpsLog.take 99 := by
      show (mkGPSFix data now :: s.gpsLog).take GPS_CAP = _
      rw [show GPS_CAP = 99 + 1 from rfl, List.take_succ_cons]
    simp [get_latest_location, hlog]

/-- Witness for C7: on empty logs both latest queries answer 404. -/
theorem C7_latest_queries_witness :
    get_latest_rfid ⟨some 0, [], [], [], []⟩ = .error 404 ∧
    get_latest_location ⟨some 0, [], [], [], []⟩ = .error 404 :=
  ⟨(C7_latest_queries ⟨some 0, [], [], [], []⟩).1 rfl,
   (C7_latest_queries ⟨some 0, [], [], [], []⟩).2.2.1 rfl⟩

/-- Claim C9 fails on the code: scans are stored with the uid verbatim
while the per-card query upper-cases its key first, so a scan ingested
with a lower-case uid is invisible to the card history of that very
badge: after ingesting a scan with uid `f3a02f27`, the scan log is
non-empty yet the card history for `f3a02f27` is empty. -/
theorem C9_counterexample :
    (receive_rfid_scan ⟨some 0, [], [], [], []⟩
        ⟨"f3a02f27", 0⟩ "t").1.scanLog ≠ [] ∧
    get_card_history
        (receive_rfid_scan ⟨some 0, [], [], [], []⟩ ⟨"f3a02f27", 0⟩ "t").1
        "f3a02f27" = [] := by decide

/-- Claim C9 amended: the per-card history returns exactly the stored
events whose recorded uid literally equals the upper-cased query key,
most-recent-first (a sublist of the newest-first log) and unbounded;
events whose stored uid differs from the canonical key — e.g. scans
ingested with a lower-case uid — are not returned. -/
theorem C9_amended_card_history (s : SysState) (uid : String) :
    (get_card_history s uid).Sublist s.scanLog ∧
    ∀ e, e ∈ get_card_history s uid ↔
      e ∈ s.scanLog ∧ e.uid = pyUpper uid := by
  constructor
  · exact List.filter_sublist _
  · intro e
    simp [get_card_history, List.mem_filter]

/-- Claim C10: reading the counter is total when the settings row is
absent: the read returns 0 and the occupancy query reports 0 filled
and 30 available. -/
theorem C10_absent_row_reads_zero (b a : List String) (g : List GPSFix)
    (l : List ScanEvent) :
    get_current_seat_count none = 0 ∧
    get_seat_count ⟨none, b, a, g, l⟩ =
      { seats_filled := 0, total_seats := 30, seats_available := 30 } :=
  ⟨rfl, rfl⟩

/-- Claim C8: reset forces the stored counter to read 0, leaves the
membership lists and both history logs untouched, and is idempotent. -/
theorem C8_reset_frame (s : SysState) :
    get_current_seat_count (reset_seat_count s).seatRow = 0 ∧
    (reset_seat_count s).boarding = s.boarding ∧
    (reset_seat_count s).alighting = s.alighting ∧
    (reset_seat_count s).gpsLog = s.gpsLog ∧
    (reset_seat_count s).scanLog = s.scanLog ∧
    get_current_seat_count (reset_seat_count (reset_seat_count s)).seatRow = 0 := by
  cases h : s.seatRow <;>
    simp [reset_seat_count, update_seat_count, get_current_seat_count, h]
